import Mathlib

/-!
Shallow embedding of the `flowrs-img` crate (files `src/nodes/transform.rs` and
`src/nodes/webcam.rs`) and proofs about it.

Modelling conventions:
* Rust `u8`/`u16` samples are modelled as `Nat`; `f32` samples as `ℚ` (every
  conversion the code performs on them is exact, so rationals are a faithful
  value model).  The tensor element type `T` (Rust requires
  `T : From<u8> + From<u16> + From<f32>`, i.e. `f32`/`f64` in practice) is
  modelled as `ℚ`, with the `From` conversions as the value-preserving casts.
* Fallible Rust calls return `Except`; external library calls (the `image`
  decoder, the `opencv` device API, the flowrs output channel) are parameters
  of the corresponding step functions, so theorems quantify over their
  behaviour.
* A node's `&mut self` methods are modelled as state-passing functions
  returning the result together with the updated node and the list of values
  emitted on the output channel during the call.
-/

/-- Models flowrs `UpdateError`; the source only ever builds the `Other`
variant carrying an `anyhow` message, so the model carries the message. -/
inductive UpdateError where
  | other (msg : String)
deriving DecidableEq

/-- Models flowrs `InitError` (only the `Other` variant is used). -/
inductive InitError where
  | other (msg : String)
deriving DecidableEq

/-- Models flowrs `ShutdownError` (only the `Other` variant is used). -/
inductive ShutdownError where
  | other (msg : String)
deriving DecidableEq

/-- Models `image::ImageBuffer<P, Vec<S>>` for a pixel type `P` with
`P::CHANNEL_COUNT = c` and subpixel type `S`: a width, a height and the raw
sample vector (`into_raw`), laid out row-major with interleaved channels.
`hlen` is the length invariant the `image` crate guarantees
(`ImageBuffer::from_raw` refuses vectors of any other length). -/
structure ImageBuffer (c : Nat) (S : Type) where
  width : Nat
  height : Nat
  data : List S
  hlen : data.length = height * width * c

/-- The ten pixel-layout tags of the spec's `PixelBuffer` tagged union. -/
inductive PixelTag where
  | Gray8 | GrayAlpha8 | Rgb8 | Rgba8
  | Gray16 | GrayAlpha16 | Rgb16 | Rgba16
  | Rgb32Float | Rgba32Float
deriving DecidableEq

/-- Channel count implied by a pixel tag. -/
def channels_for : PixelTag → Nat
  | .Gray8 => 1
  | .GrayAlpha8 => 2
  | .Rgb8 => 3
  | .Rgba8 => 4
  | .Gray16 => 1
  | .GrayAlpha16 => 2
  | .Rgb16 => 3
  | .Rgba16 => 4
  | .Rgb32Float => 3
  | .Rgba32Float => 4

/-- Models `image::DynamicImage`.  The ten constructors mirror the ten
variants the source matches on; `unsupportedVariant` stands for any value of
the `#[non_exhaustive]` Rust enum outside those ten (the `_` arm of the
source's match). -/
inductive DynamicImage where
  | ImageLuma8 (img : ImageBuffer 1 Nat)
  | ImageLumaA8 (img : ImageBuffer 2 Nat)
  | ImageRgb8 (img : ImageBuffer 3 Nat)
  | ImageRgba8 (img : ImageBuffer 4 Nat)
  | ImageLuma16 (img : ImageBuffer 1 Nat)
  | ImageLumaA16 (img : ImageBuffer 2 Nat)
  | ImageRgb16 (img : ImageBuffer 3 Nat)
  | ImageRgba16 (img : ImageBuffer 4 Nat)
  | ImageRgb32F (img : ImageBuffer 3 ℚ)
  | ImageRgba32F (img : ImageBuffer 4 ℚ)
  | unsupportedVariant

/-- The pixel tag of a `DynamicImage`, `none` for the unsupported case. -/
def DynamicImage.tag? : DynamicImage → Option PixelTag
  | .ImageLuma8 _ => some .Gray8
  | .ImageLumaA8 _ => some .GrayAlpha8
  | .ImageRgb8 _ => some .Rgb8
  | .ImageRgba8 _ => some .Rgba8
  | .ImageLuma16 _ => some .Gray16
  | .ImageLumaA16 _ => some .GrayAlpha16
  | .ImageRgb16 _ => some .Rgb16
  | .ImageRgba16 _ => some .Rgba16
  | .ImageRgb32F _ => some .Rgb32Float
  | .ImageRgba32F _ => some .Rgba32Float
  | .unsupportedVariant => none

/-- Width of the underlying buffer (0 for the unsupported case). -/
def DynamicImage.width : DynamicImage → Nat
  | .ImageLuma8 img => img.width
  | .ImageLumaA8 img => img.width
  | .ImageRgb8 img => img.width
  | .ImageRgba8 img => img.width
  | .ImageLuma16 img => img.width
  | .ImageLumaA16 img => img.width
  | .ImageRgb16 img => img.width
  | .ImageRgba16 img => img.width
  | .ImageRgb32F img => img.width
  | .ImageRgba32F img => img.width
  | .unsupportedVariant => 0

/-- Height of the underlying buffer (0 for the unsupported case). -/
def DynamicImage.height : DynamicImage → Nat
  | .ImageLuma8 img => img.height
  | .ImageLumaA8 img => img.height
  | .ImageRgb8 img => img.height
  | .ImageRgba8 img => img.height
  | .ImageLuma16 img => img.height
  | .ImageLumaA16 img => img.height
  | .ImageRgb16 img => img.height
  | .ImageRgba16 img => img.height
  | .ImageRgb32F img => img.height
  | .ImageRgba32F img => img.height
  | .unsupportedVariant => 0

/-- Models Rust's `T::from(x)` for a `u8` source sample at `T = f32`/`f64`:
an exact, value-preserving numeric widening (no rescaling). -/
def u8_to_elem : Nat → ℚ := fun n => (n : ℚ)

/-- Models Rust's `T::from(x)` for a `u16` source sample: exact widening. -/
def u16_to_elem : Nat → ℚ := fun n => (n : ℚ)

/-- Models Rust's `T::from(x)` for an `f32` source sample (`f32 → f32/f64`):
the identity on the represented value. -/
def f32_to_elem : ℚ → ℚ := id

/-- The raw sample of a `DynamicImage` at a flat index of its row-major
interleaved buffer, converted to the tensor element type by the
value-preserving conversion of its subpixel type. -/
def DynamicImage.sampleQ : DynamicImage → Nat → ℚ
  | .ImageLuma8 img, i => u8_to_elem (img.data.getD i default)
  | .ImageLumaA8 img, i => u8_to_elem (img.data.getD i default)
  | .ImageRgb8 img, i => u8_to_elem (img.data.getD i default)
  | .ImageRgba8 img, i => u8_to_elem (img.data.getD i default)
  | .ImageLuma16 img, i => u16_to_elem (img.data.getD i default)
  | .ImageLumaA16 img, i => u16_to_elem (img.data.getD i default)
  | .ImageRgb16 img, i => u16_to_elem (img.data.getD i default)
  | .ImageRgba16 img, i => u16_to_elem (img.data.getD i default)
  | .ImageRgb32F img, i => f32_to_elem (img.data.getD i default)
  | .ImageRgba32F img, i => f32_to_elem (img.data.getD i default)
  | .unsupportedVariant, _ => 0

/-- Models `ndarray::Array3<T>` in standard (logical row-major) layout:
the axis lengths and the elements in logical iteration order. -/
structure Array3 (T : Type) where
  dim : Nat × Nat × Nat
  data : List T
deriving DecidableEq

/-- For logical flat index `i` of a `(c, h, w)`-shaped array, the flat index
of the corresponding sample in the source `(h, w, c)` row-major buffer:
writing `i = ci * (h * w) + hi * w + wi`, the source index is
`hi * (w * c) + wi * c + ci`. -/
def cwhIndex (h w c i : Nat) : Nat :=
  (i % (h * w)) / w * (w * c) + (i % (h * w)) % w * c + i / (h * w)

/-- Models `nshare::ToNdarray3::into_ndarray3` for `image::ImageBuffer`
(the call in `ImageToArray3Node::handle_image`): nshare builds an
`(height, width, channels)` array over the raw buffer and then permutes the
axes with `permuted_axes([2, 0, 1])`, so the result has shape
`(channels, height, width)`.  The permuted view is materialised here in
logical row-major order (exactly what the subsequent `mapv` observes and
produces), so element `(ci, hi, wi)` is the raw sample at
`hi * (w * c) + wi * c + ci`. -/
def into_ndarray3 {c : Nat} {S : Type} [Inhabited S] (img : ImageBuffer c S) :
    Array3 S :=
  { dim := (c, img.height, img.width)
    data := (List.range (c * (img.height * img.width))).map
      (fun i => img.data.getD (cwhIndex img.height img.width c i) default) }

/-- Models `ndarray`'s `mapv`: apply `f` to every element, keeping shape. -/
def Array3.mapv {S T : Type} (f : S → T) (a : Array3 S) : Array3 T :=
  { dim := a.dim, data := a.data.map f }

/-- Models `ImageToArray3Node::handle_image`: convert the buffer with
`into_ndarray3().mapv(|x| x.into())` and send the result on the output
channel; a send failure becomes `UpdateError::Other`.  `send` is the external
flowrs channel; the returned list is what was emitted. -/
def ImageToArray3Node.handle_image {c : Nat} {S : Type} [Inhabited S]
    (send : Array3 ℚ → Except String Unit) (conv : S → ℚ)
    (img : ImageBuffer c S) : Except UpdateError (List (Array3 ℚ)) :=
  let a := (into_ndarray3 img).mapv conv
  match send a with
  | .error e => .error (.other e)
  | .ok _ => .ok [a]

/-- Models `ImageToArray3Node::on_update` (instantiated at the `ℚ` model of
the element type `T`): if no input token is available (`input = none`) the
call is a no-op returning `Ok`; otherwise it dispatches on the ten
`DynamicImage` variants, converting via `handle_image`, and any other
variant yields the explicit `Image type not supported.` error. -/
def ImageToArray3Node.on_update (send : Array3 ℚ → Except String Unit) :
    Option DynamicImage → Except UpdateError (List (Array3 ℚ))
  | none => .ok []
  | some data =>
    match data with
    | .ImageLuma8 img => ImageToArray3Node.handle_image send u8_to_elem img
    | .ImageLumaA8 img => ImageToArray3Node.handle_image send u8_to_elem img
    | .ImageRgb8 img => ImageToArray3Node.handle_image send u8_to_elem img
    | .ImageRgba8 img => ImageToArray3Node.handle_image send u8_to_elem img
    | .ImageLuma16 img => ImageToArray3Node.handle_image send u16_to_elem img
    | .ImageLumaA16 img => ImageToArray3Node.handle_image send u16_to_elem img
    | .ImageRgb16 img => ImageToArray3Node.handle_image send u16_to_elem img
    | .ImageRgba16 img => ImageToArray3Node.handle_image send u16_to_elem img
    | .ImageRgb32F img => ImageToArray3Node.handle_image send f32_to_elem img
    | .ImageRgba32F img => ImageToArray3Node.handle_image send f32_to_elem img
    | .unsupportedVariant => .error (.other "Image type not supported.")

/-- Models `DecodeImageNode::on_update`: if an input byte vector is
available, run the `image` crate's reader (`with_guessed_format`, then
`decode`) and send the decoded image; every failing step is surfaced as
`UpdateError::Other`.  The two reader stages and the channel are external and
appear as parameters; the returned list is what was emitted. -/
def DecodeImageNode.on_update
    (withGuessedFormat : List Nat → Except String (List Nat))
    (decode : List Nat → Except String DynamicImage)
    (send : DynamicImage → Except String Unit) :
    Option (List Nat) → Except UpdateError (List DynamicImage)
  | none => .ok []
  | some data =>
    match withGuessedFormat data with
    | .error e => .error (.other e)
    | .ok reader =>
      match decode reader with
      | .error e => .error (.other e)
      | .ok img =>
        match send img with
        | .error e => .error (.other e)
        | .ok _ => .ok [img]

/-- Models `opencv::core::Mat`: column count, row count and the byte data the
raw-pointer extraction reads. -/
structure Mat where
  cols : Nat
  rows : Nat
  data : List Nat
deriving DecidableEq

/-- Models `WebcamNodeConfig`. -/
structure WebcamNodeConfig where
  device_index : Int
  frame_width : Nat
  frame_height : Nat
deriving DecidableEq

/-- Models `WebcamNode<T>`: the optional `VideoCapture` handle and the
configuration.  The handle type is a parameter `Cam` since the OpenCV device
is external state. -/
structure WebcamNode (Cam : Type) where
  camera : Option Cam
  config : WebcamNodeConfig

/-- OpenCV property id `CAP_PROP_FRAME_WIDTH`. -/
def CAP_PROP_FRAME_WIDTH : Nat := 3

/-- OpenCV property id `CAP_PROP_FRAME_HEIGHT`. -/
def CAP_PROP_FRAME_HEIGHT : Nat := 4

/-- The external OpenCV API and flowrs output channel used by `WebcamNode`,
as a record of (possibly failing, state-passing) operations: `newCap` is
`VideoCapture::new`, `isOpened` is `VideoCapture::is_opened`, `setProp` is
`VideoCapture::set` (result `bool` plus updated device), `read` is
`VideoCapture::read` (success flag, the filled `Mat`, updated device),
`cvtColor` is `cvt_color(.., COLOR_BGR2RGB, ..)` (the source unwraps its
result, so it is modelled as total), `release` is `VideoCapture::release`,
and `send` is `Output::send`. -/
structure CvOps (Cam : Type) where
  newCap : Int → Except String Cam
  isOpened : Cam → Except String Bool
  setProp : Cam → Nat → ℚ → Except String Bool × Cam
  read : Cam → Except String Bool × Mat × Cam
  cvtColor : Mat → Mat
  release : Cam → Except String Unit × Cam
  send : DynamicImage → Except String Unit

/-- Models the raw-pointer frame extraction in `WebcamNode::on_update`: read
exactly `cols * rows * 3` bytes from the RGB `Mat`'s data pointer and build
an `RgbImage` from them (`from_raw(..).unwrap()` succeeds because the vector
has exactly the required length). -/
def matToRgbBuffer (m : Mat) : ImageBuffer 3 Nat :=
  { width := m.cols
    height := m.rows
    data := (List.range (m.cols * m.rows * 3)).map (fun i => m.data.getD i 0)
    hlen := by simp only [List.length_map, List.length_range]; ring }

/-- Models `WebcamNode::on_init`: create the device, probe `is_opened`,
set the two resolution properties, and only then store the handle in
`self.camera`; every failing step returns the corresponding `InitError`
early, leaving the node unmodified. -/
def WebcamNode.on_init {Cam : Type} (ops : CvOps Cam) (node : WebcamNode Cam) :
    Except InitError Unit × WebcamNode Cam :=
  match ops.newCap node.config.device_index with
  | .error e => (.error (.other e), node)
  | .ok camera =>
    match ops.isOpened camera with
    | .error e => (.error (.other e), node)
    | .ok opened =>
      if !opened then
        (.error (.other "Camera could not be opened!"), node)
      else
        match ops.setProp camera CAP_PROP_FRAME_WIDTH
            (node.config.frame_width : ℚ) with
        | (.error e, _) => (.error (.other e), node)
        | (.ok _, camera1) =>
          match ops.setProp camera1 CAP_PROP_FRAME_HEIGHT
              (node.config.frame_height : ℚ) with
          | (.error e, _) => (.error (.other e), node)
          | (.ok _, camera2) => (.ok (), { node with camera := some camera2 })

/-- Models `WebcamNode::on_update`: `hasToken` is whether `input.next()`
returned `Ok` (no token makes the call a benign no-op); with a token, a
missing camera is the `There is no cam to update!` error; otherwise the frame
is read, colour-converted, packed into `DynamicImage::ImageRgb8` and sent.
The returned list is what was emitted on the output channel. -/
def WebcamNode.on_update {Cam : Type} (ops : CvOps Cam) (hasToken : Bool)
    (node : WebcamNode Cam) :
    Except UpdateError Unit × WebcamNode Cam × List DynamicImage :=
  if !hasToken then
    (.ok (), node, [])
  else
    match node.camera with
    | none => (.error (.other "There is no cam to update!"), node, [])
    | some cam =>
      match ops.read cam with
      | (.error e, _, cam2) =>
        (.error (.other e), { node with camera := some cam2 }, [])
      | (.ok false, _, cam2) =>
        (.error (.other "Could not read a new frame"),
          { node with camera := some cam2 }, [])
      | (.ok true, frame, cam2) =>
        let rgb_mat := ops.cvtColor frame
        let dyn_img := DynamicImage.ImageRgb8 (matToRgbBuffer rgb_mat)
        match ops.send dyn_img with
        | .ok _ => (.ok (), { node with camera := some cam2 }, [dyn_img])
        | .error e => (.error (.other e), { node with camera := some cam2 }, [])

/-- Models `WebcamNode::on_shutdown`: with no stored camera it is the
`There is no cam to shutdown!` error; otherwise `release` is called on the
stored handle (via `as_mut`, so the `camera` field keeps holding the handle)
and its result is returned. -/
def WebcamNode.on_shutdown {Cam : Type} (ops : CvOps Cam)
    (node : WebcamNode Cam) :
    Except ShutdownError Unit × WebcamNode Cam :=
  match node.camera with
  | none => (.error (.other "There is no cam to shutdown!"), node)
  | some cam =>
    match ops.release cam with
    | (.error e, cam2) => (.error (.other e), { node with camera := some cam2 })
    | (.ok _, cam2) => (.ok (), { node with camera := some cam2 })

/-! ### Helper lemmas on index arithmetic and the converted array -/

/-- `getD` on a mapped range evaluates the function, for in-range indices. -/
theorem getD_range_map {α : Type} (f : Nat → α) (n i : Nat) (d : α)
    (h : i < n) : ((List.range n).map f).getD i d = f i := by
  simp [List.getD_eq_getElem?_getD, List.getElem?_map, List.getElem?_range, h]

/-- The flat `(c, h, w)` index built from in-range coordinates is in range. -/
theorem flat_chw_lt {c h w ci hi wi : Nat} (hc : ci < c) (hh : hi < h)
    (hw : wi < w) : ci * (h * w) + hi * w + wi < c * (h * w) := by
  have h1 : hi * w + wi < h * w :=
    calc hi * w + wi < hi * w + w := Nat.add_lt_add_left hw _
      _ = (hi + 1) * w := (Nat.succ_mul hi w).symm
      _ ≤ h * w := Nat.mul_le_mul_right w hh
  calc ci * (h * w) + hi * w + wi = ci * (h * w) + (hi * w + wi) :=
        Nat.add_assoc _ _ _
    _ < ci * (h * w) + h * w := Nat.add_lt_add_left h1 _
    _ = (ci + 1) * (h * w) := (Nat.succ_mul ci (h * w)).symm
    _ ≤ c * (h * w) := Nat.mul_le_mul_right (h * w) hc

/-- Unfolding `cwhIndex` at a flat `(c, h, w)` index recovers the raw
`(h, w, c)` buffer index of the same sample. -/
theorem cwhIndex_flat {c h w ci hi wi : Nat} (_hc : ci < c) (hh : hi < h)
    (hw : wi < w) :
    cwhIndex h w c (ci * (h * w) + hi * w + wi) =
      hi * (w * c) + wi * c + ci := by
  have hw0 : 0 < w := Nat.lt_of_le_of_lt (Nat.zero_le wi) hw
  have hh0 : 0 < h := Nat.lt_of_le_of_lt (Nat.zero_le hi) hh
  have hhw : 0 < h * w := Nat.mul_pos hh0 hw0
  have hr : hi * w + wi < h * w :=
    calc hi * w + wi < hi * w + w := Nat.add_lt_add_left hw _
      _ = (hi + 1) * w := (Nat.succ_mul hi w).symm
      _ ≤ h * w := Nat.mul_le_mul_right w hh
  have e1 : ci * (h * w) + hi * w + wi = h * w * ci + (hi * w + wi) := by
    ring
  have ediv : (ci * (h * w) + hi * w + wi) / (h * w) = ci := by
    rw [e1, Nat.mul_add_div hhw, Nat.div_eq_of_lt hr, Nat.add_zero]
  have emod : (ci * (h * w) + hi * w + wi) % (h * w) = hi * w + wi := by
    rw [e1, Nat.mul_add_mod, Nat.mod_eq_of_lt hr]
  have e2 : hi * w + wi = w * hi + wi := by ring
  have ediv2 : (hi * w + wi) / w = hi := by
    rw [e2, Nat.mul_add_div hw0, Nat.div_eq_of_lt hw, Nat.add_zero]
  have emod2 : (hi * w + wi) % w = wi := by
    rw [e2, Nat.mul_add_mod, Nat.mod_eq_of_lt hw]
  simp only [cwhIndex]
  rw [emod, ediv, ediv2, emod2]

/-- Shape and elements of the array `handle_image` converts: its dimensions
are `(c, height, width)`, it has `c * height * width` elements, and the
element at logical index `(ci, hi, wi)` is the value-preserving conversion of
the raw source sample at `(hi, wi, ci)`. -/
theorem into_ndarray3_mapv_spec {c : Nat} {S : Type} [Inhabited S]
    (conv : S → ℚ) (img : ImageBuffer c S) :
    ((into_ndarray3 img).mapv conv).dim = (c, img.height, img.width) ∧
    ((into_ndarray3 img).mapv conv).data.length =
      c * (img.height * img.width) ∧
    ∀ (d0 : ℚ) (ci hi wi : Nat), ci < c → hi < img.height → wi < img.width →
      ((into_ndarray3 img).mapv conv).data.getD
          (ci * (img.height * img.width) + hi * img.width + wi) d0 =
        conv (img.data.getD (hi * (img.width * c) + wi * c + ci) default) := by
  refine ⟨rfl, ?_, ?_⟩
  · simp [Array3.mapv, into_ndarray3]
  · intro d0 ci hi wi hc hh hw
    have hlt := flat_chw_lt hc hh hw
    show (((List.range (c * (img.height * img.width))).map
        (fun i => img.data.getD (cwhIndex img.height img.width c i)
          default)).map conv).getD _ d0 = _
    rw [List.map_map, getD_range_map _ _ _ _ hlt]
    show conv (img.data.getD (cwhIndex img.height img.width c
      (ci * (img.height * img.width) + hi * img.width + wi)) default) = _
    rw [cwhIndex_flat hc hh hw]

/-- `handle_image` with a successful channel sends and returns exactly the
converted array. -/
theorem handle_image_ok {c : Nat} {S : Type} [Inhabited S]
    (send : Array3 ℚ → Except String Unit) (hsend : ∀ a, send a = .ok ())
    (conv : S → ℚ) (img : ImageBuffer c S) :
    ImageToArray3Node.handle_image send conv img =
      .ok [(into_ndarray3 img).mapv conv] := by
  simp only [ImageToArray3Node.handle_image, hsend]

/-- Combined specification of `handle_image` used by the per-variant cases:
the emitted array, its dimensions, its element count and its elements. -/
theorem handle_image_spec {c : Nat} {S : Type} [Inhabited S]
    (send : Array3 ℚ → Except String Unit) (hsend : ∀ a, send a = .ok ())
    (conv : S → ℚ) (img : ImageBuffer c S) :
    ∃ a : Array3 ℚ, ImageToArray3Node.handle_image send conv img = .ok [a] ∧
      a.dim = (c, img.height, img.width) ∧
      a.data.length = img.width * img.height * c ∧
      ∀ ci hi wi : Nat, ci < c → hi < img.height → wi < img.width →
        a.data.getD (ci * (img.height * img.width) + hi * img.width + wi) 0 =
          conv (img.data.getD (hi * (img.width * c) + wi * c + ci) default) := by
  obtain ⟨hdim, hlen, helem⟩ := into_ndarray3_mapv_spec conv img
  refine ⟨(into_ndarray3 img).mapv conv, handle_image_ok send hsend conv img,
    hdim, ?_, fun ci hi wi hc hh hw => helem 0 ci hi wi hc hh hw⟩
  rw [hlen]; ring

/-! ### Concrete inputs used by witnesses and counterexamples -/

/-- An output channel that always accepts (`Output::send` returning `Ok`). -/
def sendOk : Array3 ℚ → Except String Unit := fun _ => .ok ()

/-- A 2×1 `Gray8` buffer with samples `[10, 200]` (the spec's example). -/
def exGrayImg : ImageBuffer 1 Nat := ⟨2, 1, [10, 200], rfl⟩

/-- The spec's example image as a `DynamicImage`. -/
def exGray : DynamicImage := .ImageLuma8 exGrayImg

/-- A 2×1 `Rgb8` buffer whose raw row-major samples are `[1, 2, 3, 4, 5, 6]`
(pixel `(0,0)` is `(1,2,3)`, pixel `(0,1)` is `(4,5,6)`). -/
def exRgbImg : ImageBuffer 3 Nat := ⟨2, 1, [1, 2, 3, 4, 5, 6], rfl⟩

/-- The 2×1 RGB example as a `DynamicImage`. -/
def exRgb : DynamicImage := .ImageRgb8 exRgbImg

/-! ### Claims about `ImageToArray3Node` -/

/-- Claim C1: for every supported `DynamicImage` variant (the ten tags) and
the supported element type, `ImageToArray3Node::on_update` produces a tensor
with `width * height * channels_for(tag)` elements whose values are the
source samples' numeric values under value-preserving conversion, with no
rescaling: the tensor element at logical position `(ci, hi, wi)` is exactly
the converted raw sample at row-major position `(hi, wi, ci)`. -/
theorem imageToArray3_on_update_values
    (send : Array3 ℚ → Except String Unit) (hsend : ∀ a, send a = .ok ())
    (d : DynamicImage) (t : PixelTag) (ht : d.tag? = some t) :
    ∃ a : Array3 ℚ, ImageToArray3Node.on_update send (some d) = .ok [a] ∧
      a.data.length = d.width * d.height * channels_for t ∧
      ∀ ci hi wi : Nat,
        ci < channels_for t → hi < d.height → wi < d.width →
        a.data.getD (ci * (d.height * d.width) + hi * d.width + wi) 0 =
          d.sampleQ (hi * (d.width * channels_for t) +
            wi * channels_for t + ci) := by
  cases d with
  | unsupportedVariant => simp [DynamicImage.tag?] at ht
  | ImageLuma8 img =>
    simp only [DynamicImage.tag?] at ht; injection ht with ht; subst ht
    obtain ⟨a, ha, _, hlen, helem⟩ := handle_image_spec send hsend u8_to_elem img
    exact ⟨a, ha, hlen, helem⟩
  | ImageLumaA8 img =>
    simp only [DynamicImage.tag?] at ht; injection ht with ht; subst ht
    obtain ⟨a, ha, _, hlen, helem⟩ := handle_image_spec send hsend u8_to_elem img
    exact ⟨a, ha, hlen, helem⟩
  | ImageRgb8 img =>
    simp only [DynamicImage.tag?] at ht; injection ht with ht; subst ht
    obtain ⟨a, ha, _, hlen, helem⟩ := handle_image_spec send hsend u8_to_elem img
    exact ⟨a, ha, hlen, helem⟩
  | ImageRgba8 img =>
    simp only [DynamicImage.tag?] at ht; injection ht with ht; subst ht
    obtain ⟨a, ha, _, hlen, helem⟩ := handle_image_spec send hsend u8_to_elem img
    exact ⟨a, ha, hlen, helem⟩
  | ImageLuma16 img =>
    simp only [DynamicImage.tag?] at ht; injection ht with ht; subst ht
    obtain ⟨a, ha, _, hlen, helem⟩ := handle_image_spec send hsend u16_to_elem img
    exact ⟨a, ha, hlen, helem⟩
  | ImageLumaA16 img =>
    simp only [DynamicImage.tag?] at ht; injection ht with ht; subst ht
    obtain ⟨a, ha, _, hlen, helem⟩ := handle_image_spec send hsend u16_to_elem img
    exact ⟨a, ha, hlen, helem⟩
  | ImageRgb16 img =>
    simp only [DynamicImage.tag?] at ht; injection ht with ht; subst ht
    obtain ⟨a, ha, _, hlen, helem⟩ := handle_image_spec send hsend u16_to_elem img
    exact ⟨a, ha, hlen, helem⟩
  | ImageRgba16 img =>
    simp only [DynamicImage.tag?] at ht; injection ht with ht; subst ht
    obtain ⟨a, ha, _, hlen, helem⟩ := handle_image_spec send hsend u16_to_elem img
    exact ⟨a, ha, hlen, helem⟩
  | ImageRgb32F img =>
    simp only [DynamicImage.tag?] at ht; injection ht with ht; subst ht
    obtain ⟨a, ha, _, hlen, helem⟩ := handle_image_spec send hsend f32_to_elem img
    exact ⟨a, ha, hlen, helem⟩
  | ImageRgba32F img =>
    simp only [DynamicImage.tag?] at ht; injection ht with ht; subst ht
    obtain ⟨a, ha, _, hlen, helem⟩ := handle_image_spec send hsend f32_to_elem img
    exact ⟨a, ha, hlen, helem⟩

/-- Witness for C1 at the spec's example: a 2×1 Gray8 buffer with samples
`[10, 200]` converts to a tensor of `2 * 1 * 1` elements whose values are the
unrescaled sample values. -/
theorem imageToArray3_on_update_values_witness :
    ∃ a : Array3 ℚ, ImageToArray3Node.on_update sendOk (some exGray) =
        .ok [a] ∧
      a.data.length = exGray.width * exGray.height * channels_for .Gray8 ∧
      ∀ ci hi wi : Nat,
        ci < channels_for .Gray8 → hi < exGray.height → wi < exGray.width →
        a.data.getD (ci * (exGray.height * exGray.width) +
          hi * exGray.width + wi) 0 =
          exGray.sampleQ (hi * (exGray.width * channels_for .Gray8) +
            wi * channels_for .Gray8 + ci) :=
  imageToArray3_on_update_values sendOk (fun _ => rfl) exGray .Gray8 rfl

/-- Claim C2 counterexample: converting the 2×1 Rgb8 image with raw samples
`[1, 2, 3, 4, 5, 6]` yields an array of shape `(3, 1, 2)` — channels first —
with logically ordered elements `[1, 4, 2, 5, 3, 6]`; the claimed shape
`(height, width, channels) = (1, 2, 3)` and the claimed source-memory
element order `[1, 2, 3, 4, 5, 6]` are both wrong. -/
theorem imageToArray3_axis_order_counterexample :
    ImageToArray3Node.on_update sendOk (some exRgb) =
      .ok [⟨(3, 1, 2), [1, 4, 2, 5, 3, 6]⟩] ∧
    ((3, 1, 2) : Nat × Nat × Nat) ≠ ((1, 2, 3) : Nat × Nat × Nat) ∧
    ([1, 4, 2, 5, 3, 6] : List ℚ) ≠ ([1, 2, 3, 4, 5, 6] : List ℚ) :=
  ⟨rfl, by decide, by decide⟩

/-- Claim C2 (amended): the emitted `Array3` has axis order
`(channels, height, width)` — the channel axis, of length
`channels_for(tag)`, is the first (outermost) axis, because nshare's
`into_ndarray3` permutes the buffer's `(height, width, channels)` layout
with `permuted_axes([2, 0, 1])` — and its element ordering is
channel-outer: the element at logical index `(ci, hi, wi)` equals the
source buffer's sample at row-major position `(hi, wi, ci)`. -/
theorem imageToArray3_on_update_axis_order
    (send : Array3 ℚ → Except String Unit) (hsend : ∀ a, send a = .ok ())
    (d : DynamicImage) (t : PixelTag) (ht : d.tag? = some t) :
    ∃ a : Array3 ℚ, ImageToArray3Node.on_update send (some d) = .ok [a] ∧
      a.dim = (channels_for t, d.height, d.width) ∧
      ∀ ci hi wi : Nat,
        ci < channels_for t → hi < d.height → wi < d.width →
        a.data.getD (ci * (d.height * d.width) + hi * d.width + wi) 0 =
          d.sampleQ (hi * (d.width * channels_for t) +
            wi * channels_for t + ci) := by
  cases d with
  | unsupportedVariant => simp [DynamicImage.tag?] at ht
  | ImageLuma8 img =>
    simp only [DynamicImage.tag?] at ht; injection ht with ht; subst ht
    obtain ⟨a, ha, hdim, _, helem⟩ := handle_image_spec send hsend u8_to_elem img
    exact ⟨a, ha, hdim, helem⟩
  | ImageLumaA8 img =>
    simp only [DynamicImage.tag?] at ht; injection ht with ht; subst ht
    obtain ⟨a, ha, hdim, _, helem⟩ := handle_image_spec send hsend u8_to_elem img
    exact ⟨a, ha, hdim, helem⟩
  | ImageRgb8 img =>
    simp only [DynamicImage.tag?] at ht; injection ht with ht; subst ht
    obtain ⟨a, ha, hdim, _, helem⟩ := handle_image_spec send hsend u8_to_elem img
    exact ⟨a, ha, hdim, helem⟩
  | ImageRgba8 img =>
    simp only [DynamicImage.tag?] at ht; injection ht with ht; subst ht
    obtain ⟨a, ha, hdim, _, helem⟩ := handle_image_spec send hsend u8_to_elem img
    exact ⟨a, ha, hdim, helem⟩
  | ImageLuma16 img =>
    simp only [DynamicImage.tag?] at ht; injection ht with ht; subst ht
    obtain ⟨a, ha, hdim, _, helem⟩ := handle_image_spec send hsend u16_to_elem img
    exact ⟨a, ha, hdim, helem⟩
  | ImageLumaA16 img =>
    simp only [DynamicImage.tag?] at ht; injection ht with ht; subst ht
    obtain ⟨a, ha, hdim, _, helem⟩ := handle_image_spec send hsend u16_to_elem img
    exact ⟨a, ha, hdim, helem⟩
  | ImageRgb16 img =>
    simp only [DynamicImage.tag?] at ht; injection ht with ht; subst ht
    obtain ⟨a, ha, hdim, _, helem⟩ := handle_image_spec send hsend u16_to_elem img
    exact ⟨a, ha, hdim, helem⟩
  | ImageRgba16 img =>
    simp only [DynamicImage.tag?] at ht; injection ht with ht; subst ht
    obtain ⟨a, ha, hdim, _, helem⟩ := handle_image_spec send hsend u16_to_elem img
    exact ⟨a, ha, hdim, helem⟩
  | ImageRgb32F img =>
    simp only [DynamicImage.tag?] at ht; injection ht with ht; subst ht
    obtain ⟨a, ha, hdim, _, helem⟩ := handle_image_spec send hsend f32_to_elem img
    exact ⟨a, ha, hdim, helem⟩
  | ImageRgba32F img =>
    simp only [DynamicImage.tag?] at ht; injection ht with ht; subst ht
    obtain ⟨a, ha, hdim, _, helem⟩ := handle_image_spec send hsend f32_to_elem img
    exact ⟨a, ha, hdim, helem⟩

/-- Witness for the amended C2 at the 2×1 RGB example. -/
theorem imageToArray3_on_update_axis_order_witness :
    ∃ a : Array3 ℚ, ImageToArray3Node.on_update sendOk (some exRgb) =
        .ok [a] ∧
      a.dim = (channels_for .Rgb8, exRgb.height, exRgb.width) ∧
      ∀ ci hi wi : Nat,
        ci < channels_for .Rgb8 → hi < exRgb.height → wi < exRgb.width →
        a.data.getD (ci * (exRgb.height * exRgb.width) +
          hi * exRgb.width + wi) 0 =
          exRgb.sampleQ (hi * (exRgb.width * channels_for .Rgb8) +
            wi * channels_for .Rgb8 + ci) :=
  imageToArray3_on_update_axis_order sendOk (fun _ => rfl) exRgb .Rgb8 rfl

/-- Claim C5: the dispatch of `ImageToArray3Node::on_update` is exhaustive
over the ten supported variants — each converts successfully (for the
supported element type, with a working channel) — and any `DynamicImage`
outside those ten variants yields the explicit
`Image type not supported.` error, not a silent fallback. -/
theorem imageToArray3_on_update_exhaustive
    (send : Array3 ℚ → Except String Unit) (hsend : ∀ a, send a = .ok ())
    (d : DynamicImage) :
    (d.tag?.isSome →
      ∃ a, ImageToArray3Node.on_update send (some d) = .ok [a]) ∧
    (d.tag? = none →
      ImageToArray3Node.on_update send (some d) =
        .error (.other "Image type not supported.")) := by
  cases d with
  | unsupportedVariant =>
    exact ⟨fun h => by simp [DynamicImage.tag?] at h, fun _ => rfl⟩
  | ImageLuma8 img =>
    exact ⟨fun _ => ⟨_, handle_image_ok send hsend u8_to_elem img⟩,
      fun h => by simp [DynamicImage.tag?] at h⟩
  | ImageLumaA8 img =>
    exact ⟨fun _ => ⟨_, handle_image_ok send hsend u8_to_elem img⟩,
      fun h => by simp [DynamicImage.tag?] at h⟩
  | ImageRgb8 img =>
    exact ⟨fun _ => ⟨_, handle_image_ok send hsend u8_to_elem img⟩,
      fun h => by simp [DynamicImage.tag?] at h⟩
  | ImageRgba8 img =>
    exact ⟨fun _ => ⟨_, handle_image_ok send hsend u8_to_elem img⟩,
      fun h => by simp [DynamicImage.tag?] at h⟩
  | ImageLuma16 img =>
    exact ⟨fun _ => ⟨_, handle_image_ok send hsend u16_to_elem img⟩,
      fun h => by simp [DynamicImage.tag?] at h⟩
  | ImageLumaA16 img =>
    exact ⟨fun _ => ⟨_, handle_image_ok send hsend u16_to_elem img⟩,
      fun h => by simp [DynamicImage.tag?] at h⟩
  | ImageRgb16 img =>
    exact ⟨fun _ => ⟨_, handle_image_ok send hsend u16_to_elem img⟩,
      fun h => by simp [DynamicImage.tag?] at h⟩
  | ImageRgba16 img =>
    exact ⟨fun _ => ⟨_, handle_image_ok send hsend u16_to_elem img⟩,
      fun h => by simp [DynamicImage.tag?] at h⟩
  | ImageRgb32F img =>
    exact ⟨fun _ => ⟨_, handle_image_ok send hsend f32_to_elem img⟩,
      fun h => by simp [DynamicImage.tag?] at h⟩
  | ImageRgba32F img =>
    exact ⟨fun _ => ⟨_, handle_image_ok send hsend f32_to_elem img⟩,
      fun h => by simp [DynamicImage.tag?] at h⟩

/-- Witness for C5 at the Gray8 example. -/
theorem imageToArray3_on_update_exhaustive_witness :
    ∃ a, ImageToArray3Node.on_update sendOk (some exGray) = .ok [a] :=
  (imageToArray3_on_update_exhaustive sendOk (fun _ => rfl) exGray).1 rfl

/-! ### Claim about `DecodeImageNode` -/

/-- Claim C6: `DecodeImageNode::on_update` is total (the model is a Lean
function, and every fallible step of the source is handled with `?`, never
unwrapped), and for every input byte sequence and every behaviour of the
`image` reader: a format-guessing or decode failure is returned to the
caller as an `UpdateError` (never silently skipped), an image is emitted
only when decoding (and the send) succeeds, and an empty input channel is a
no-op success. -/
theorem decodeImage_on_update_surfaces_errors
    (withGuessedFormat : List Nat → Except String (List Nat))
    (decode : List Nat → Except String DynamicImage)
    (send : DynamicImage → Except String Unit) (bytes : List Nat) :
    DecodeImageNode.on_update withGuessedFormat decode send none = .ok [] ∧
    (∀ e, withGuessedFormat bytes = .error e →
      DecodeImageNode.on_update withGuessedFormat decode send (some bytes) =
        .error (.other e)) ∧
    (∀ r e, withGuessedFormat bytes = .ok r → decode r = .error e →
      DecodeImageNode.on_update withGuessedFormat decode send (some bytes) =
        .error (.other e)) ∧
    (∀ r img e, withGuessedFormat bytes = .ok r → decode r = .ok img →
      send img = .error e →
      DecodeImageNode.on_update withGuessedFormat decode send (some bytes) =
        .error (.other e)) ∧
    (∀ r img, withGuessedFormat bytes = .ok r → decode r = .ok img →
      send img = .ok () →
      DecodeImageNode.on_update withGuessedFormat decode send (some bytes) =
        .ok [img]) := by
  refine ⟨rfl, ?_, ?_, ?_, ?_⟩
  · intro e h
    simp [DecodeImageNode.on_update, h]
  · intro r e h1 h2
    simp [DecodeImageNode.on_update, h1, h2]
  · intro r img e h1 h2 h3
    simp [DecodeImageNode.on_update, h1, h2, h3]
  · intro r img h1 h2 h3
    simp [DecodeImageNode.on_update, h1, h2, h3]

/-- A format guesser that accepts any byte sequence (the reader built). -/
def fmtOk : List Nat → Except String (List Nat) := fun b => .ok b

/-- A decoder that rejects every byte sequence, as the `image` crate does on
noise bytes. -/
def decodeFail : List Nat → Except String DynamicImage :=
  fun _ => .error "decode failed"

/-- An image output channel that always accepts. -/
def imgSendOk : DynamicImage → Except String Unit := fun _ => .ok ()

/-- Witness for C6: on the empty byte sequence with a rejecting decoder,
`on_update` returns the decode error (and emits nothing). -/
theorem decodeImage_on_update_witness :
    DecodeImageNode.on_update fmtOk decodeFail imgSendOk (some []) =
      .error (.other "decode failed") :=
  (decodeImage_on_update_surfaces_errors fmtOk decodeFail imgSendOk
    []).2.2.1 [] "decode failed" rfl rfl

/-! ### Helper lemma and concrete backends for `WebcamNode` -/

/-- Full case analysis of `on_init`: an error leaves the node unmodified;
success means device creation, the `is_opened` probe and both
resolution-property sets all succeeded, and exactly then the resulting
handle is stored in `camera`. -/
theorem webcam_on_init_spec {Cam : Type} (ops : CvOps Cam)
    (node : WebcamNode Cam) :
    (∀ e, (WebcamNode.on_init ops node).1 = .error e →
      (WebcamNode.on_init ops node).2 = node) ∧
    ((WebcamNode.on_init ops node).1 = .ok () →
      ∃ cam0 b1 cam1 b2 cam2,
        ops.newCap node.config.device_index = .ok cam0 ∧
        ops.isOpened cam0 = .ok true ∧
        ops.setProp cam0 CAP_PROP_FRAME_WIDTH (node.config.frame_width : ℚ) =
          (.ok b1, cam1) ∧
        ops.setProp cam1 CAP_PROP_FRAME_HEIGHT
          (node.config.frame_height : ℚ) = (.ok b2, cam2) ∧
        (WebcamNode.on_init ops node).2 =
          { node with camera := some cam2 }) := by
  rcases hn : ops.newCap node.config.device_index with e | cam0
  · constructor
    · intro e' _
      simp [WebcamNode.on_init, hn]
    · intro hok
      simp [WebcamNode.on_init, hn] at hok
  · rcases hio : ops.isOpened cam0 with e | opened
    · constructor
      · intro e' _
        simp [WebcamNode.on_init, hn, hio]
      · intro hok
        simp [WebcamNode.on_init, hn, hio] at hok
    · cases opened with
      | false =>
        constructor
        · intro e' _
          simp [WebcamNode.on_init, hn, hio]
        · intro hok
          simp [WebcamNode.on_init, hn, hio] at hok
      | true =>
        rcases hs1 : ops.setProp cam0 CAP_PROP_FRAME_WIDTH
            (node.config.frame_width : ℚ) with ⟨r1, cam1⟩
        rcases r1 with e | b1
        · constructor
          · intro e' _
            simp [WebcamNode.on_init, hn, hio, hs1]
          · intro hok
            simp [WebcamNode.on_init, hn, hio, hs1] at hok
        · rcases hs2 : ops.setProp cam1 CAP_PROP_FRAME_HEIGHT
              (node.config.frame_height : ℚ) with ⟨r2, cam2⟩
          rcases r2 with e | b2
          · constructor
            · intro e' _
              simp [WebcamNode.on_init, hn, hio, hs1, hs2]
            · intro hok
              simp [WebcamNode.on_init, hn, hio, hs1, hs2] at hok
          · constructor
            · intro e' habs
              simp [WebcamNode.on_init, hn, hio, hs1, hs2] at habs
            · intro _
              refine ⟨cam0, b1, cam1, b2, cam2, ?_, ?_, ?_, ?_,
                by simp [WebcamNode.on_init, hn, hio, hs1, hs2]⟩ <;>
                first
                  | rfl
                  | simp [hn, hio, hs1, hs2]

/-- The webcam configuration the repository's tests use: device 0,
640×480. -/
def cfg0 : WebcamNodeConfig := ⟨0, 640, 480⟩

/-- A freshly constructed node (`WebcamNode::new`): no camera handle. -/
def nodeUninit : WebcamNode Unit := ⟨none, cfg0⟩

/-- A node whose camera was opened successfully. -/
def nodeReady : WebcamNode Unit := ⟨some (), cfg0⟩

/-- A backend in which every OpenCV call succeeds, modelled on OpenCV's
documented behaviour: in particular `VideoCapture::release` returns `Ok`
even on an already-released capture (OpenCV's `release` is idempotent, and
the `opencv` crate surfaces no error for it). -/
def unitOps : CvOps Unit :=
  { newCap := fun _ => .ok ()
    isOpened := fun _ => .ok true
    setProp := fun c _ _ => (.ok true, c)
    read := fun c => (.ok true, ⟨2, 2, List.replicate 12 0⟩, c)
    cvtColor := fun m => m
    release := fun c => (.ok (), c)
    send := fun _ => .ok () }

/-- A backend whose device construction fails (`VideoCapture::new`
returning an error). -/
def failOps : CvOps Unit :=
  { unitOps with newCap := fun _ => .error "VideoCapture error" }

/-! ### Claims about `WebcamNode` -/

/-- Claim C3 counterexample: with a backend whose `release` always succeeds
(OpenCV's behaviour), a successfully initialized node returns success from
the first `on_shutdown` AND ALSO from the second — the second call is not
the lifecycle-misuse error the claim requires, because the node neither
clears the `camera` field nor tracks a released state. -/
theorem webcam_double_shutdown_counterexample :
    (WebcamNode.on_init unitOps nodeUninit).1 = .ok () ∧
    (WebcamNode.on_shutdown unitOps
      (WebcamNode.on_init unitOps nodeUninit).2).1 = .ok () ∧
    (WebcamNode.on_shutdown unitOps
      (WebcamNode.on_shutdown unitOps
        (WebcamNode.on_init unitOps nodeUninit).2).2).1 = .ok () :=
  ⟨rfl, rfl, rfl⟩

/-- Claim C3 (amended): after a successful initialization the first
`on_shutdown` returns success, but a second `on_shutdown` is NOT rejected
as lifecycle misuse: the `camera` field still holds the handle, so the node
re-invokes `release` on it and returns that result — with a backend whose
`release` always succeeds (as OpenCV's does on an already-released device)
the second call also returns success. -/
theorem webcam_double_shutdown_not_an_error {Cam : Type} (ops : CvOps Cam)
    (hrel : ∀ c, (ops.release c).1 = .ok ()) (node : WebcamNode Cam)
    (cam : Cam) (h : node.camera = some cam) :
    (WebcamNode.on_shutdown ops node).1 = .ok () ∧
    (WebcamNode.on_shutdown ops node).2.camera =
      some (ops.release cam).2 ∧
    (WebcamNode.on_shutdown ops
      (WebcamNode.on_shutdown ops node).2).1 = .ok () := by
  have h1 := hrel cam
  rcases hrc : ops.release cam with ⟨r, cam2⟩
  rw [hrc] at h1
  simp only at h1
  subst h1
  have h2 := hrel cam2
  rcases hrc2 : ops.release cam2 with ⟨r2, cam3⟩
  rw [hrc2] at h2
  simp only at h2
  subst h2
  refine ⟨?_, ?_, ?_⟩ <;>
    simp [WebcamNode.on_shutdown, h, hrc, hrc2]

/-- Witness for the amended C3 at the all-succeeding backend. -/
theorem webcam_double_shutdown_not_an_error_witness :
    (WebcamNode.on_shutdown unitOps nodeReady).1 = .ok () ∧
    (WebcamNode.on_shutdown unitOps nodeReady).2.camera =
      some (unitOps.release ()).2 ∧
    (WebcamNode.on_shutdown unitOps
      (WebcamNode.on_shutdown unitOps nodeReady).2).1 = .ok () :=
  webcam_double_shutdown_not_an_error unitOps (fun _ => rfl) nodeReady () rfl

/-- Claim C4: an uninitialized `WebcamNode` (no camera handle) that receives
`on_update` with a trigger token available always behaves the same way: it
returns the `There is no cam to update!` error, emits nothing, and leaves
the node unchanged (in particular it never lazily initializes), for every
backend — so repeated calls behave identically, never one behaviour and
then the other. -/
theorem webcam_on_update_uninitialized {Cam : Type} (ops : CvOps Cam)
    (node : WebcamNode Cam) (h : node.camera = none) :
    WebcamNode.on_update ops true node =
      (.error (.other "There is no cam to update!"), node, []) := by
  simp [WebcamNode.on_update, h]

/-- Witness for C4 at a fresh node and the all-succeeding backend. -/
theorem webcam_on_update_uninitialized_witness :
    WebcamNode.on_update unitOps true nodeUninit =
      (.error (.other "There is no cam to update!"), nodeUninit, []) :=
  webcam_on_update_uninitialized unitOps nodeUninit rfl

/-- Claim C7: `on_shutdown` on a node whose camera was never opened returns
the `There is no cam to shutdown!` error and changes nothing — not a silent
success. -/
theorem webcam_on_shutdown_no_device {Cam : Type} (ops : CvOps Cam)
    (node : WebcamNode Cam) (h : node.camera = none) :
    WebcamNode.on_shutdown ops node =
      (.error (.other "There is no cam to shutdown!"), node) := by
  simp [WebcamNode.on_shutdown, h]

/-- Witness for C7 at a fresh node. -/
theorem webcam_on_shutdown_no_device_witness :
    WebcamNode.on_shutdown unitOps nodeUninit =
      (.error (.other "There is no cam to shutdown!"), nodeUninit) :=
  webcam_on_shutdown_no_device unitOps nodeUninit rfl

/-- Claim C8: for every node in any state and every backend, `on_update`
with no trigger token available returns success, emits nothing and leaves
the node untouched — the backend is never consulted (the equation holds for
arbitrary `ops`, including ones whose `read` fails or mutates the
device). -/
theorem webcam_on_update_no_token {Cam : Type} (ops : CvOps Cam)
    (node : WebcamNode Cam) :
    WebcamNode.on_update ops false node = (.ok (), node, []) := rfl

/-- Claim C9: `on_init` is atomic in the `camera` field — the handle is
assigned only after `VideoCapture::new`, the `is_opened` probe and both
resolution-property sets all succeed, and on any failure the node (so in
particular its `camera` field) is left unchanged. -/
theorem webcam_on_init_atomic {Cam : Type} (ops : CvOps Cam)
    (node : WebcamNode Cam) :
    (∀ e, (WebcamNode.on_init ops node).1 = .error e →
      (WebcamNode.on_init ops node).2 = node) ∧
    ((WebcamNode.on_init ops node).1 = .ok () →
      ∃ cam0 b1 cam1 b2 cam2,
        ops.newCap node.config.device_index = .ok cam0 ∧
        ops.isOpened cam0 = .ok true ∧
        ops.setProp cam0 CAP_PROP_FRAME_WIDTH (node.config.frame_width : ℚ) =
          (.ok b1, cam1) ∧
        ops.setProp cam1 CAP_PROP_FRAME_HEIGHT
          (node.config.frame_height : ℚ) = (.ok b2, cam2) ∧
        (WebcamNode.on_init ops node).2 =
          { node with camera := some cam2 }) :=
  webcam_on_init_spec ops node

/-- Witness for C9: with a backend whose device construction fails, the
failed `on_init` leaves the node (camera still absent) unchanged. -/
theorem webcam_on_init_atomic_witness :
    (WebcamNode.on_init failOps nodeUninit).2 = nodeUninit :=
  (webcam_on_init_atomic failOps nodeUninit).1
    (.other "VideoCapture error") rfl

/-- Claim C10: no operation clears the camera handle. `on_update` and
`on_shutdown` preserve whether a handle is present (after a successful
`on_shutdown` the handle remains stored; on a handle-less node they leave it
absent), a failed `on_init` leaves the node unchanged, and a successful
`on_init` is the only transition that makes the handle present. -/
theorem webcam_camera_never_cleared {Cam : Type} (ops : CvOps Cam)
    (node : WebcamNode Cam) (tok : Bool) :
    ((WebcamNode.on_update ops tok node).2.1.camera.isSome =
      node.camera.isSome) ∧
    ((WebcamNode.on_shutdown ops node).2.camera.isSome =
      node.camera.isSome) ∧
    (∀ e, (WebcamNode.on_init ops node).1 = .error e →
      (WebcamNode.on_init ops node).2 = node) ∧
    ((WebcamNode.on_init ops node).1 = .ok () →
      ∃ cam, (WebcamNode.on_init ops node).2.camera = some cam) := by
  refine ⟨?_, ?_, (webcam_on_init_spec ops node).1, ?_⟩
  · cases tok with
    | false => rfl
    | true =>
      rcases hcam : node.camera with _ | cam
      · simp [WebcamNode.on_update, hcam]
      · rcases hr : ops.read cam with ⟨r, m, cam2⟩
        rcases r with e | b
        · simp [WebcamNode.on_update, hcam, hr]
        · cases b with
          | false => simp [WebcamNode.on_update, hcam, hr]
          | true =>
            rcases hs : ops.send (DynamicImage.ImageRgb8
                (matToRgbBuffer (ops.cvtColor m))) with e | u
            · simp [WebcamNode.on_update, hcam, hr, hs]
            · simp [WebcamNode.on_update, hcam, hr, hs]
  · rcases hcam : node.camera with _ | cam
    · simp [WebcamNode.on_shutdown, hcam]
    · rcases hrc : ops.release cam with ⟨r, cam2⟩
      rcases r with e | u
      · simp [WebcamNode.on_shutdown, hcam, hrc]
      · simp [WebcamNode.on_shutdown, hcam, hrc]
  · intro hok
    obtain ⟨_, _, _, _, cam2, _, _, _, _, h2⟩ :=
      (webcam_on_init_spec ops node).2 hok
    exact ⟨cam2, by rw [h2]⟩

/-- Witness for C10: a successful `on_init` stores a handle. -/
theorem webcam_camera_never_cleared_witness :
    ∃ cam, (WebcamNode.on_init unitOps nodeUninit).2.camera = some cam :=
  (webcam_camera_never_cleared unitOps nodeUninit true).2.2.2 rfl
